import Mathlib

/-!
Verification of the resolution-and-staleness engine of the IMDb-ratings
Cloudflare Worker (batch lookup, tiered TTL cache, OMDb fallback chain).

The embedding follows the worker source closely:
* timestamps are modelled as `Int` milliseconds (JS `Date.getTime()`);
  an unparsable or missing date string is `none` (JS `NaN`);
* JS floating-point numbers that carry ratings are modelled as `ℚ`;
* JS truthiness on strings/numbers is made explicit (`truthyS`, `truthyQ`);
* the three OMDb fetch helpers are an oracle (`Provider`): the engine's
  observable behaviour is a function of the oracle's answers, and every
  provider round trip is logged as a `PCall` so that call counts and call
  order can be stated.
-/

namespace ImdbWorker

/-- TTL constants in milliseconds (source: `const TTL = ...`). -/
def ttlRecent : Int := 60 * 60 * 1000

/-- 1 day in milliseconds (`TTL.MEDIUM`). -/
def ttlMedium : Int := 24 * 60 * 60 * 1000

/-- 30 days in milliseconds (`TTL.STABLE`). -/
def ttlStable : Int := 30 * 24 * 60 * 60 * 1000

/-- Milliseconds per day, used to translate `daysSinceRelease` comparisons:
`(now - release) / 86400000 <= k` holds in the reals iff
`now - release <= k * 86400000` holds over the integers. -/
def msPerDay : Int := 24 * 60 * 60 * 1000

/-- JS truthiness of an optional string: `undefined`/`null` and `""` are falsy. -/
def truthyS : Option String → Bool
  | none => false
  | some s => s ≠ ""

/-- JS truthiness of an optional number: `undefined`/`null`, `0` (and `NaN`,
which cannot arise in `ℚ`) are falsy. -/
def truthyQ : Option ℚ → Bool
  | none => false
  | some q => q ≠ 0

/-- Digits of a decimal numeral to a `Nat`. -/
def natOfDigits (ds : List Char) : Nat :=
  ds.foldl (fun acc c => 10 * acc + (c.toNat - 48)) 0

/-- Model of JS `parseFloat` on the decimal strings OMDb produces: skip
leading whitespace, optional sign, then a digit run with an optional
fractional part; the numeric prefix is parsed and trailing junk ignored.
`none` stands for `NaN` (no digit found).  Exponent forms are not modelled
(OMDb rating/vote fields never use them).  The value
`sign * (i + f / 10^k)` is built as one `mkRat` so that it reduces by
machine arithmetic. -/
def parseFloatQ (s : String) : Option ℚ :=
  let cs := s.data.dropWhile Char.isWhitespace
  let signed : Int × List Char :=
    match cs with
    | '-' :: rest => (-1, rest)
    | '+' :: rest => (1, rest)
    | _ => (1, cs)
  let intPart := signed.2.takeWhile Char.isDigit
  let afterInt := signed.2.dropWhile Char.isDigit
  let fracPart : List Char :=
    match afterInt with
    | '.' :: rest => rest.takeWhile Char.isDigit
    | _ => []
  if intPart.isEmpty ∧ fracPart.isEmpty then none
  else
    some (mkRat
      (signed.1 * ((natOfDigits intPart * 10 ^ fracPart.length + natOfDigits fracPart : Nat) : Int))
      (10 ^ fracPart.length))

/-- Model of JS `parseInt(s)` (radix 10): skip leading whitespace, optional
sign, then a decimal digit prefix; `none` stands for `NaN`. -/
def parseIntJS (s : String) : Option Int :=
  let cs := s.data.dropWhile Char.isWhitespace
  let signed : Int × List Char :=
    match cs with
    | '-' :: rest => (-1, rest)
    | '+' :: rest => (1, rest)
    | _ => (1, cs)
  let ds := signed.2.takeWhile Char.isDigit
  if ds.isEmpty then none else some (signed.1 * (natOfDigits ds : Int))

/-- JS `parseFloat(x) || fb`: `NaN` and `0` fall back. -/
def orElseQ (x : Option ℚ) (fb : ℚ) : ℚ :=
  match x with
  | some q => if q = 0 then fb else q
  | none => fb

/-- JS `parseInt(x) || fb`: `NaN` and `0` fall back. -/
def orElseInt (x : Option Int) (fb : Int) : Int :=
  match x with
  | some n => if n = 0 then fb else n
  | none => fb

/-- JS `x || fb` on an optional string (`undefined`/`""` fall back). -/
def jsOrStr (x : Option String) (fb : String) : String :=
  match x with
  | some s => if s ≠ "" then s else fb
  | none => fb

/-- `.replace(/,/g, "")` on vote counts. -/
def stripCommas (s : String) : String :=
  String.mk (s.data.filter (fun c => c ≠ ','))

/-- Model of JS `String.prototype.trim`: drop whitespace at both ends. -/
def jsTrim (s : String) : String :=
  String.mk (((s.data.dropWhile Char.isWhitespace).reverse.dropWhile Char.isWhitespace).reverse)

/-- ASCII lowercasing of one character (the titles and OMDb type strings
the worker lowercases are ASCII). -/
def lowerChar (c : Char) : Char :=
  if 'A' ≤ c ∧ c ≤ 'Z' then Char.ofNat (c.toNat + 32) else c

/-- Model of JS `String.prototype.toLowerCase` on ASCII strings. -/
def jsToLower (s : String) : String :=
  String.mk (s.data.map lowerChar)

/-- Whether `pat` is a suffix of `s` (JS regex `pat$`, literal pattern). -/
def jsEndsWith (s pat : String) : Bool :=
  s.data.reverse.take pat.data.length == pat.data.reverse

/-- A row of the `movies` D1 table (also the shape of `movieData`).
`release_date` and `updated_at` are stored as date strings; here they are
the parsed instant in ms, `none` when missing or unparsable (`NaN`). -/
structure Row where
  imdb_id : Option String
  title : Option String
  year : Int
  release_date : Option Int
  prime_href : String
  rating : ℚ
  rt_rating : Option String
  votes : Int
  updated_at : Option Int
deriving DecidableEq, Repr

/-- One item of the batch request payload (`movies` array). -/
structure MovieReq where
  title : Option String := none
  href : Option String := none
  entityType : Option String := none
  verificationRating : Option ℚ := none
deriving DecidableEq, Repr

/-- An OMDb detail payload, restricted to the fields the worker reads.
`Released` is encoded by parse outcome: `none` = the field is missing or
the literal `"N/A"` (the unknown marker), `some (some t)` = a date string
parsing to instant `t`, `some none` = a present string that
`new Date(...)` cannot parse (whose `toISOString()` throws). -/
structure OmdbResult where
  imdbID : String := ""
  Year : String := ""
  Released : Option (Option Int) := none
  imdbRating : Option String := none
  imdbVotes : Option String := none
  type : Option String := none
  Ratings : Option (List (String × String)) := none
deriving DecidableEq, Repr

/-- Oracle for the three OMDb fetch helpers (`fetchOMDbTitle`,
`fetchOMDbById`, `fetchOMDbSearch`): each maps its query to the detail
payload the worker would extract, `none` when the provider reports
not-found.  `bySearch` already folds in the search-then-detail round trip. -/
structure Provider where
  byTitle : String → Option OmdbResult
  byId : String → Option OmdbResult
  bySearch : String → Option OmdbResult

/-- The `source` tag of a per-item response. -/
inductive Source
  | cache
  | cacheStale
  | api
  | apiRefresh
deriving DecidableEq, Repr

/-- One entry of the batch response (`{ href, data?, error?, source? }`). -/
structure MovieResult where
  href : Option String
  data : Option Row := none
  error : Option String := none
  source : Option Source := none
deriving DecidableEq, Repr

/-- A logged provider round trip. -/
inductive PCall
  | byTitle (t : String)
  | byId (i : String)
  | bySearch (q : String)
deriving DecidableEq, Repr

/-- `isDataStale(releaseDateStr, updatedAtStr)` (worker source):
a missing release date returns `true` at once; an unparsable date
(`NaN` from `new Date(...)`) also returns `true`.  Both "missing" and
"unparsable" are `none` here.  Otherwise pick the TTL tier from the
(real-valued) days since release and compare the time since update. -/
def isDataStale (release_date updated_at : Option Int) (now : Int) : Bool :=
  match release_date, updated_at with
  | some release, some lastUpdate =>
    let timeSinceUpdate := now - lastUpdate
    if now - release ≤ 7 * msPerDay then timeSinceUpdate > ttlRecent
    else if now - release ≤ 14 * msPerDay then timeSinceUpdate > ttlMedium
    else timeSinceUpdate > ttlStable
  | _, _ => true

/-- `isValidResult(omdbResult, primeEntityType)`: the rating must be
present and not `"N/A"`, and when a Prime entity type is supplied the
OMDb type must match the expected one — but only when the OMDb type is
itself present and nonempty (the loose check). -/
def isValidResult (omdbResult : OmdbResult) (primeEntityType : Option String) : Bool :=
  if ¬ truthyS omdbResult.imdbRating ∨ omdbResult.imdbRating = some "N/A" then false
  else if truthyS primeEntityType then
    let omdbType := omdbResult.type.map jsToLower
    let expectedOmdbType : String := if primeEntityType = some "Movie" then "movie" else "series"
    match omdbType with
    | some ot => if ot ≠ "" ∧ ot ≠ expectedOmdbType then false else true
    | none => true
  else true

/-- `extractRottenTomatoes(ratings)`: first entry whose `Source` is
`"Rotten Tomatoes"`, returning its `Value` when truthy. -/
def extractRottenTomatoes (ratings : Option (List (String × String))) : Option String :=
  match ratings with
  | none => none
  | some rs =>
    match rs.find? (fun r => r.1 == "Rotten Tomatoes") with
    | some rt => if rt.2 ≠ "" then some rt.2 else none
    | none => none

/-- `parseReleaseDate(dateStr)`: a missing or `"N/A"` date becomes "now";
a present but unparsable one makes `toISOString()` throw (the `Except`
error), and a parsable one is returned as its instant. -/
def parseReleaseDate (dateStr : Option (Option Int)) (now : Int) : Except String Int :=
  match dateStr with
  | none => Except.ok now
  | some (some t) => Except.ok t
  | some none => Except.error "Invalid time value"

/-- Remove trailing whitespace from a character list. -/
def dropTrailingWs (cs : List Char) : List Char :=
  (cs.reverse.dropWhile Char.isWhitespace).reverse

/-- The start of the trailing bracketed group matched by
`\(​[^)]*\)` (resp. the square variant): the first index holding `openC`
with no later `closeC` in the list.  Applied to the title minus its final
closing character. -/
def firstOpenIdx (openC closeC : Char) : List Char → Option Nat
  | [] => none
  | c :: rest =>
    if c = openC ∧ ¬ (closeC ∈ rest) then some 0
    else
      match firstOpenIdx openC closeC rest with
      | some n => some (n + 1)
      | none => none

/-- Pre-processing step 1 (worker source): strip a trailing
"Directors Cut" suffix (case-insensitive, with the apostrophe), but only
when what remains after trimming is nonempty. -/
def stripDirectorsCut (title : String) : String :=
  if jsEndsWith (jsToLower title) "director\x27s cut" then
    let stripped := jsTrim (String.mk (title.data.take (title.data.length - 14)))
    if stripped.data.length > 0 then stripped else title
  else title

/-- Pre-processing step 2: `title.replace(/\s*(?:\(...\)|\[...\])\s*$/, "").trim() || title`.
Note the `.trim()` applies even when no bracket group matches, and an
empty result falls back to the pre-replace title. -/
def stripBracketSuffix (title : String) : String :=
  let cs := title.data
  let s1 := dropTrailingWs cs
  let replaced : List Char :=
    match s1.getLast? with
    | some c =>
      if c = ')' then
        match firstOpenIdx '(' ')' s1.dropLast with
        | some p => s1.take p
        | none => cs
      else if c = ']' then
        match firstOpenIdx '[' ']' s1.dropLast with
        | some p => s1.take p
        | none => cs
      else cs
    | none => cs
  let r := jsTrim (String.mk replaced)
  if r ≠ "" then r else title

/-- `title.replace(/&/g, " and ")` character-wise. -/
def replaceAmp (cs : List Char) : List Char :=
  cs.flatMap (fun c => if c = '&' then " and ".data else [c])

/-- `.replace(/\s+/g, " ")`: collapse each whitespace run to one space.
The flag records whether the previous character was whitespace. -/
def collapseWsAux : Bool → List Char → List Char
  | _, [] => []
  | prevWs, c :: rest =>
    if c.isWhitespace then
      if prevWs then collapseWsAux true rest
      else ' ' :: collapseWsAux true rest
    else c :: collapseWsAux false rest

/-- The ampersand fallback title:
`title.replace(/&/g, " and ").replace(/\s+/g, " ").trim()`. -/
def ampersandAlt (title : String) : String :=
  jsTrim (String.mk (collapseWsAux false (replaceAmp title.data)))

/-- `title.match(/[-:&]/)`: index of the first special character. -/
def firstSpecialIdx (cs : List Char) : Option Nat :=
  cs.findIdx? (fun c => c == '-' || c == ':' || c == '&')

/-- The verification-mismatch test
`Math.abs(parseFloat(imdbRating) - v) >= 0.2`.  A `NaN` comparison is
false in JS, hence `none ↦ false`.  The JS float literal `0.2` is the
exact rational `1/5` in this model. -/
def ratingMismatch (imdbRating : Option String) (v : ℚ) : Bool :=
  match imdbRating.bind parseFloatQ with
  | some q => decide (|q - v| ≥ 1/5)
  | none => false

/-- The resolution chain of `processMovieLogic` after pre-processing
(worker source, steps 1 to 4): exact title lookup with validation, the
`needsFallback` decision (with discard of a verification-mismatching
result), ampersand retry, search fallback, and the special-character
truncation step.  Returns the winning payload (if any) and the provider
calls made, in order. -/
def resolveChain (title : String) (entityType : Option String)
    (verificationRating : Option ℚ) (P : Provider) :
    Option OmdbResult × List PCall :=
  -- Step 1: exact title lookup, result discarded when invalid
  let r0 := P.byTitle title
  let calls1 := [PCall.byTitle title]
  let r1 : Option OmdbResult :=
    match r0 with
    | some r => if isValidResult r entityType then some r else none
    | none => none
  -- Verification check: decide needsFallback, possibly discarding r1
  let afterVerif : Option OmdbResult × Bool :=
    if truthyQ verificationRating then
      let v := verificationRating.getD 0
      match r1 with
      | none => (none, true)
      | some r =>
        if ¬ truthyS r.imdbRating ∨ r.imdbRating = some "N/A" ∨
            ratingMismatch r.imdbRating v = true then
          (none, true)
        else (r1, false)
    else (r1, r1.isNone)
  let omdb1 := afterVerif.1
  let needsFallback := afterVerif.2
  -- Step 2: ampersand replacement, only under needsFallback
  let step2 : Option OmdbResult × List PCall :=
    if needsFallback then
      if '&' ∈ title.data then
        let altTitle := ampersandAlt title
        let ra : Option OmdbResult :=
          match P.byTitle altTitle with
          | some r => if isValidResult r entityType then some r else none
          | none => none
        (ra, [PCall.byTitle altTitle])
      else (omdb1, [])
    else (omdb1, [])
  let omdb2 := step2.1
  -- Step 3: search API fallback on the cleaned title (no validation)
  let step3 : Option OmdbResult × List PCall :=
    if omdb2.isNone ∧ needsFallback then
      (P.bySearch title, [PCall.bySearch title])
    else (omdb2, [])
  let omdb3 := step3.1
  -- Step 4: special-character truncation
  let step4Cond : Bool :=
    match omdb3 with
    | none => true
    | some r => truthyQ verificationRating && ratingMismatch r.imdbRating (verificationRating.getD 0)
  let step4 : Option OmdbResult × List PCall :=
    if step4Cond then
      match firstSpecialIdx title.data with
      | some idx =>
        if truthyQ verificationRating then
          -- reverse fallback: keep the part after the special character
          let reverseTitle := jsTrim (String.mk (title.data.drop (idx + 1)))
          if reverseTitle.data.length > 2 then
            (P.bySearch reverseTitle, [PCall.bySearch reverseTitle])
          else (omdb3, [])
        else
          -- standard fallback: keep the part before the special character
          let truncatedTitle := jsTrim (String.mk (title.data.take idx))
          if truncatedTitle.data.length > 2 then
            (P.bySearch truncatedTitle, [PCall.bySearch truncatedTitle])
          else (omdb3, [])
      | none => (omdb3, [])
    else (omdb3, [])
  (step4.1, calls1 ++ step2.2 ++ step3.2 ++ step4.2)

/-- The `movieData` object built from a winning payload (source `api`):
defensive numeric parsing with `|| 0` fallbacks, the locally normalized
title, `release_date` defaulting to now, `updated_at := now`.  The
`Except` error is the exception a present-but-unparsable `Released`
raises (caught by the enclosing try). -/
def buildMovieData (title : String) (href : String) (omdbResult : OmdbResult) (now : Int) :
    Except String Row :=
  match parseReleaseDate omdbResult.Released now with
  | Except.error e => Except.error e
  | Except.ok rel =>
    Except.ok {
      imdb_id := some omdbResult.imdbID
      title := some title
      year := orElseInt (parseIntJS omdbResult.Year) 0
      release_date := some rel
      prime_href := href
      rating := orElseQ (omdbResult.imdbRating.bind parseFloatQ) 0
      rt_rating := extractRottenTomatoes omdbResult.Ratings
      votes := orElseInt (parseIntJS (stripCommas (jsOrStr omdbResult.imdbVotes "0"))) 0
      updated_at := some now }

/-- The TTL-expired, id-keyed refresh branch of `processMovieLogic`
(worker source): one `fetchOMDbById` round trip; on a payload with a usable
rating the refreshed numeric fields are spliced over the cached row (title
kept from cache, `|| cached` fallbacks on year/rating/votes, the
Rotten-Tomatoes string falling back to the cached one); on anything else —
not-found, unusable rating, or a thrown date parse — the stale cached row
is returned with source `cache-stale`, and no title search is attempted. -/
def refreshById (c : Row) (origHref : Option String) (href : String)
    (P : Provider) (now : Int) : MovieResult × List PCall :=
  let imdbId := c.imdb_id.getD ""
  let refreshed := P.byId imdbId
  let calls := [PCall.byId imdbId]
  match refreshed with
  | some r =>
    if truthyS r.imdbRating ∧ r.imdbRating ≠ some "N/A" then
      let rtRating := extractRottenTomatoes r.Ratings
      match parseReleaseDate r.Released now with
      | Except.error _ =>
        ({ href := origHref, data := some c, source := some Source.cacheStale }, calls)
      | Except.ok rel =>
        let movieData : Row := {
          imdb_id := some r.imdbID
          title := c.title
          year := orElseInt (parseIntJS r.Year) c.year
          release_date := some rel
          prime_href := href
          rating := orElseQ (r.imdbRating.bind parseFloatQ) c.rating
          rt_rating := match rtRating with | some v => some v | none => c.rt_rating
          votes := orElseInt (parseIntJS (stripCommas (jsOrStr r.imdbVotes "0"))) c.votes
          updated_at := some now }
        ({ href := origHref, data := some movieData, source := some Source.apiRefresh }, calls)
    else ({ href := origHref, data := some c, source := some Source.cacheStale }, calls)
  | none => ({ href := origHref, data := some c, source := some Source.cacheStale }, calls)

/-- The code of `processMovieLogic` after the cached block (worker
source): missing-title error, the two normalization passes, the
resolution chain, and the `movieData` build with source `api`. -/
def resolveFromTitle (origHref : Option String) (href : String) (entityType : Option String)
    (verificationRating : Option ℚ) (P : Provider) (now : Int) (titleOpt : Option String) :
    MovieResult × List PCall :=
  if ¬ truthyS titleOpt then
    ({ href := origHref, error := some "OMDb Lookup skipped: Missing title" }, [])
  else
    let t := stripBracketSuffix (stripDirectorsCut (titleOpt.getD ""))
    let chain := resolveChain t entityType verificationRating P
    match chain.1 with
    | none => ({ href := origHref, error := some "OMDb Not Found" }, chain.2)
    | some r =>
      match buildMovieData t href r now with
      | Except.error e => ({ href := origHref, error := some e }, chain.2)
      | Except.ok movieData =>
        ({ href := origHref, data := some movieData, source := some Source.api }, chain.2)

/-- Lines 277-278 of the worker: falling out of the cached block, a
missing request title falls back to the cached title, and when both are
missing the stale row is returned with source `cache-stale`. -/
def cachedFallThrough (origHref : Option String) (href : String) (entityType : Option String)
    (verificationRating : Option ℚ) (P : Provider) (now : Int)
    (reqTitle : Option String) (c : Row) : MovieResult × List PCall :=
  if ¬ truthyS reqTitle ∧ ¬ truthyS c.title then
    ({ href := origHref, data := some c, source := some Source.cacheStale }, [])
  else if ¬ truthyS reqTitle then
    resolveFromTitle origHref href entityType verificationRating P now c.title
  else
    resolveFromTitle origHref href entityType verificationRating P now reqTitle

/-- `processMovieLogic(movie, cached, env)` (worker source), with the
provider calls it performs logged in order. -/
def processMovieLogic (movie : MovieReq) (cached : Option Row) (P : Provider) (now : Int) :
    MovieResult × List PCall :=
  if ¬ truthyS movie.href then
    ({ href := movie.href, error := some "Missing href" }, [])
  else
    let href := movie.href.getD ""
    match cached with
    | none =>
      resolveFromTitle movie.href href movie.entityType movie.verificationRating P now movie.title
    | some c =>
      if ¬ isDataStale c.release_date c.updated_at now then
        if truthyQ movie.verificationRating then
          let cachedRating := c.rating
          let localRating := movie.verificationRating.getD 0
          if |cachedRating - localRating| ≥ 1/5 then
            -- cache invalidation by verification mismatch: fall through
            cachedFallThrough movie.href href movie.entityType movie.verificationRating P now
              movie.title c
          else ({ href := movie.href, data := some c, source := some Source.cache }, [])
        else ({ href := movie.href, data := some c, source := some Source.cache }, [])
      else
        if truthyS c.imdb_id then refreshById c movie.href href P now
        else cachedFallThrough movie.href href movie.entityType movie.verificationRating P now
          movie.title c

/-- `cachedMap.get(movie.href)` after the batched D1 read: the read is
restricted to the deduplicated truthy hrefs, so a missing or empty href
finds nothing. -/
def lookupHref (db : List Row) (h : Option String) : Option Row :=
  match h with
  | some s => if s ≠ "" then db.find? (fun r => r.prime_href == s) else none
  | none => none

/-- The batched upsert statement: `INSERT ... ON CONFLICT(prime_href) DO
UPDATE SET imdb_id, rating, rt_rating, votes, updated_at = excluded...`.
On conflict the listed five columns take the incoming values and the
remaining columns (title, year, release_date) keep their stored values. -/
def upsertMovie (db : List Row) (data : Row) : List Row :=
  match db.find? (fun r => r.prime_href == data.prime_href) with
  | some _ =>
    db.map (fun r =>
      if r.prime_href == data.prime_href then
        { r with imdb_id := data.imdb_id, rating := data.rating,
                 rt_rating := data.rt_rating, votes := data.votes,
                 updated_at := data.updated_at }
      else r)
  | none => db ++ [data]

/-- `handleBatchLookup(request, env)` after payload validation: one
deduplicated batched read, per-item processing against that snapshot,
collection of the results whose source is `api` into `updates`, and one
batched upsert write.  Returns the per-item results, the store after the
batched write, and the provider calls of the whole batch. -/
def handleBatchLookup (movies : List MovieReq) (db : List Row) (P : Provider) (now : Int) :
    List MovieResult × List Row × List PCall :=
  let processed := movies.map (fun movie =>
    processMovieLogic movie (lookupHref db movie.href) P now)
  let results := processed.map Prod.fst
  let updates := processed.filterMap (fun pr =>
    if pr.1.source = some Source.api then pr.1.data else none)
  let calls := (processed.map Prod.snd).flatten
  let newDb := updates.foldl upsertMovie db
  (results, newDb, calls)

/-! ### Concrete fixtures used by the claim theorems -/

/-- A detail payload whose release date the provider reports unknown
(`Released` missing or `"N/A"`), with a usable rating. -/
def sampleDetail : OmdbResult :=
  { imdbID := "tt0100", Year := "2018", Released := none,
    imdbRating := some "8.0", imdbVotes := some "1,000", type := some "movie",
    Ratings := some [("Rotten Tomatoes", "97%")] }

/-- A cached row written at instant 0 for a title released at instant 0. -/
def sampleRow : Row :=
  { imdb_id := some "tt0100", title := some "Old Title", year := 2017,
    release_date := some 0, prime_href := "/h1", rating := 7, rt_rating := some "90%",
    votes := 500, updated_at := some 0 }

/-- 100 days after instant 0: `sampleRow` is then stale (stable tier). -/
def sampleNow : Int := 100 * msPerDay

/-- `sampleRow` updated one second before `sampleNow`: fresh. -/
def freshRow : Row := { sampleRow with updated_at := some (sampleNow - 1000) }

/-- An incoming record for the same key as `sampleRow` with every field
different. -/
def updRow : Row :=
  { imdb_id := some "tt9999", title := some "New Title", year := 2024,
    release_date := some 5, prime_href := "/h1", rating := 9, rt_rating := some "55%",
    votes := 900, updated_at := some 6 }

/-- Provider oracle answering only id lookups (with `sampleDetail`). -/
def provIdOnly : Provider :=
  { byTitle := fun _ => none, byId := fun _ => some sampleDetail, bySearch := fun _ => none }

/-- Provider oracle answering only exact-title lookups (with `sampleDetail`). -/
def provTitleOnly : Provider :=
  { byTitle := fun _ => some sampleDetail, byId := fun _ => none, bySearch := fun _ => none }

/-- Provider oracle reporting not-found on every query. -/
def provEmpty : Provider :=
  { byTitle := fun _ => none, byId := fun _ => none, bySearch := fun _ => none }

/-! ### Claim theorems -/

/-- C1: the claim says every item whose resolution produced a new or
refreshed record (source `api` or `api-refresh`) is included in the
batched store write.  The code collects only `source === "api"`: here a
stale cached record is successfully refreshed by id (the response entry
carries source `api-refresh` and the refreshed data), yet the store after
the batch is unchanged — the refresh is not persisted. -/
theorem C1_api_refresh_not_persisted :
    ((handleBatchLookup [{ title := some "T", href := some "/h1" }] [sampleRow]
        provIdOnly sampleNow).1.map MovieResult.source = [some Source.apiRefresh]) ∧
    ((handleBatchLookup [{ title := some "T", href := some "/h1" }] [sampleRow]
        provIdOnly sampleNow).1.map MovieResult.data ≠ [some sampleRow]) ∧
    ((handleBatchLookup [{ title := some "T", href := some "/h1" }] [sampleRow]
        provIdOnly sampleNow).2.1 = [sampleRow]) := by
  refine ⟨by decide, by decide, by decide⟩

/-- C2 counterexample: an upsert whose key already exists replaces only
`imdb_id`, `rating`, `rt_rating`, `votes` and `updated_at`; contrary to
the claim, `title`, `year` and `release_date` keep the previously stored
values. -/
theorem C2_counterexample :
    (upsertMovie [sampleRow] updRow).map Row.title = [some "Old Title"] ∧
    (upsertMovie [sampleRow] updRow).map Row.year = [2017] ∧
    (upsertMovie [sampleRow] updRow).map Row.release_date = [some 0] ∧
    (upsertMovie [sampleRow] updRow).map Row.rating = [9] ∧
    updRow.title = some "New Title" ∧ updRow.year = 2024 ∧
    updRow.release_date = some 5 := by
  decide

/-- C3 counterexample: two batch items sharing the key `"/h3"` each
trigger their own provider resolution — two `byTitle` round trips, not
the single one the claim promises (only the store read is deduplicated). -/
theorem C3_counterexample :
    (handleBatchLookup [{ title := some "Heat", href := some "/h3" },
                        { title := some "Heat", href := some "/h3" }] []
        provTitleOnly 0).2.2 =
      [PCall.byTitle "Heat", PCall.byTitle "Heat"] := by
  decide

/-- C5 counterexample: a stale cached record with a stored id is refreshed
by id; the provider reports the release date unknown (`Released` is the
unknown marker), and contrary to the claim the previously known release
date (`some 0`) is not preserved: the result carries `release_date = now`. -/
theorem C5_counterexample :
    sampleDetail.Released = none ∧
    sampleRow.release_date = some 0 ∧
    (processMovieLogic { title := some "T", href := some "/h1" } (some sampleRow)
        provIdOnly sampleNow).1 =
      { href := some "/h1",
        data := some { imdb_id := some "tt0100", title := some "Old Title", year := 2018,
                       release_date := some sampleNow, prime_href := "/h1", rating := 8,
                       rt_rating := some "97%", votes := 1000, updated_at := some sampleNow },
        source := some Source.apiRefresh } ∧
    some sampleNow ≠ sampleRow.release_date := by
  decide

/-- C6 counterexample: a fresh cached record with rating 7 and a supplied
`verificationRating` of 0 — a difference far above 0.2 — is still
returned as a plain cache hit, because the code tests the verification
rating for JS truthiness and 0 is falsy. -/
theorem C6_counterexample :
    isDataStale freshRow.release_date freshRow.updated_at sampleNow = false ∧
    freshRow.rating = 7 ∧
    |freshRow.rating - 0| ≥ 1/5 ∧
    (processMovieLogic
        { title := some "T", href := some "/h1", verificationRating := some 0 }
        (some freshRow) provEmpty sampleNow).1 =
      { href := some "/h1", data := some freshRow, source := some Source.cache } := by
  refine ⟨by decide, by decide, by norm_num [freshRow, sampleRow], by decide⟩

/-- C7: on `"Mission: Impossible - Fallout"` with no verification rating,
after `byTitle` and `bySearch` both miss, the special-character split
matches the FIRST of `- : &` — the colon after `"Mission"` — so the next
search is `"Mission"`, not the claimed `"Mission: Impossible"` (which the
code comment also promises). -/
theorem C7_forward_split_uses_first_special_char :
    (processMovieLogic { title := some "Mission: Impossible - Fallout", href := some "/h2" }
        none provEmpty 0).2 =
      [PCall.byTitle "Mission: Impossible - Fallout",
       PCall.bySearch "Mission: Impossible - Fallout",
       PCall.bySearch "Mission"] := by
  decide

/-- C9 counterexample: an item with no key is not dropped from the batch
response — it contributes an entry with the per-item error
`"Missing href"`. -/
theorem C9_counterexample :
    (handleBatchLookup [{ title := some "T" }] [] provEmpty 0).1 =
      [{ href := none, data := none, error := some "Missing href", source := none }] ∧
    (handleBatchLookup [{ title := some "T" }] [] provEmpty 0).1.length ≠ 0 := by
  decide

/-- C4: `isStale` is true unconditionally when the release date or the
update time is missing/unparsable; otherwise the TTL tier is 1 hour up to
7 days since release, 1 day up to 14 days, 30 days beyond, and a record
is stale iff the time since update exceeds the tier; in particular with
release 7 days ago the record is fresh 59 minutes after its update and
stale after 61 minutes, and the tier switches from 1 day to 30 days
between 14 and 15 days since release. -/
theorem C4_staleness_policy (now r u : Int) :
    (isDataStale none (some u) now = true) ∧
    (isDataStale (some r) none now = true) ∧
    (isDataStale none none now = true) ∧
    (now - r ≤ 7 * msPerDay →
      (isDataStale (some r) (some u) now = true ↔ now - u > ttlRecent)) ∧
    (7 * msPerDay < now - r → now - r ≤ 14 * msPerDay →
      (isDataStale (some r) (some u) now = true ↔ now - u > ttlMedium)) ∧
    (14 * msPerDay < now - r →
      (isDataStale (some r) (some u) now = true ↔ now - u > ttlStable)) ∧
    (isDataStale (some (now - 7 * msPerDay)) (some (now - 59 * 60 * 1000)) now = false) ∧
    (isDataStale (some (now - 7 * msPerDay)) (some (now - 61 * 60 * 1000)) now = true) ∧
    (isDataStale (some (now - 14 * msPerDay)) (some (now - (ttlMedium + 1))) now = true) ∧
    (isDataStale (some (now - 15 * msPerDay)) (some (now - (ttlMedium + 1))) now = false) := by
  refine ⟨rfl, rfl, rfl, ?_, ?_, ?_, ?_, ?_, ?_, ?_⟩ <;>
    simp only [isDataStale, msPerDay, ttlRecent, ttlMedium, ttlStable] <;>
    norm_num <;>
    intros <;>
    split_ifs <;>
    omega

/-- C4 witness: the policy applied at concrete instants — tier 1 with a
3-day-old release, stale one day after the update. -/
theorem C4_staleness_policy_witness :
    isDataStale (some 0) (some 0) (3 * msPerDay) = true := by
  have h := (C4_staleness_policy (3 * msPerDay) 0 0).2.2.2.1
    (by norm_num [msPerDay])
  rw [h]
  norm_num [msPerDay, ttlRecent]

/-- C2 amended: on an upsert whose key already exists, the conflicting
row takes `imdb_id`, `rating`, `rt_rating`, `votes` and `updated_at` from
the incoming record, while `title`, `year` and `release_date` keep the
previously stored values. -/
theorem C2_upsert_conflict_fields (db : List Row) (data old : Row)
    (hfind : db.find? (fun r => r.prime_href == data.prime_href) = some old) :
    ∀ u ∈ upsertMovie db data, u.prime_href = data.prime_href →
      u.imdb_id = data.imdb_id ∧ u.rating = data.rating ∧
      u.rt_rating = data.rt_rating ∧ u.votes = data.votes ∧
      u.updated_at = data.updated_at ∧
      ∃ r ∈ db, r.prime_href = data.prime_href ∧
        u.title = r.title ∧ u.year = r.year ∧ u.release_date = r.release_date := by
  intro u hu hkey
  rw [upsertMovie, hfind] at hu
  rcases List.mem_map.mp hu with ⟨r, hr, hru⟩
  by_cases hmatch : r.prime_href == data.prime_href
  · rw [if_pos hmatch] at hru
    subst hru
    refine ⟨rfl, rfl, rfl, rfl, rfl, r, hr, ?_, rfl, rfl, rfl⟩
    exact beq_iff_eq.mp hmatch
  · rw [if_neg hmatch] at hru
    subst hru
    exact absurd (beq_iff_eq.mpr hkey) hmatch

/-- C2 witness: the conflicting upsert of `updRow` over `sampleRow`. -/
theorem C2_upsert_conflict_fields_witness :
    ∃ u ∈ upsertMovie [sampleRow] updRow,
      u.imdb_id = updRow.imdb_id ∧ u.rating = updRow.rating ∧
      u.title = sampleRow.title ∧ u.year = sampleRow.year ∧
      u.release_date = sampleRow.release_date := by
  have h := C2_upsert_conflict_fields [sampleRow] updRow sampleRow (by decide)
    { sampleRow with imdb_id := updRow.imdb_id, rating := updRow.rating,
                     rt_rating := updRow.rt_rating, votes := updRow.votes,
                     updated_at := updRow.updated_at }
    (by decide) (by decide)
  refine ⟨_, by decide, h.1, h.2.1, ?_, ?_, ?_⟩ <;> decide

/-- C3 amended: duplicate keys are deduplicated only for the store read;
each of two identical items is dispatched to its own resolution, so the
batch performs the per-item provider calls twice and returns two response
entries that carry identical data (the model is deterministic). -/
theorem C3_duplicates_resolved_independently (m : MovieReq) (db : List Row)
    (P : Provider) (now : Int) :
    (handleBatchLookup [m, m] db P now).1 =
      [(processMovieLogic m (lookupHref db m.href) P now).1,
       (processMovieLogic m (lookupHref db m.href) P now).1] ∧
    (handleBatchLookup [m, m] db P now).2.2 =
      (processMovieLogic m (lookupHref db m.href) P now).2 ++
      (processMovieLogic m (lookupHref db m.href) P now).2 := by
  constructor <;> simp [handleBatchLookup]

/-- Helper: under a truthy href, a stale cached row with a truthy stored
id routes `processMovieLogic` to the id-refresh branch. -/
theorem processMovieLogic_stale_with_id (m : MovieReq) (c : Row) (P : Provider) (now : Int)
    (hhref : truthyS m.href = true)
    (hstale : isDataStale c.release_date c.updated_at now = true)
    (hid : truthyS c.imdb_id = true) :
    processMovieLogic m (some c) P now = refreshById c m.href (m.href.getD "") P now := by
  simp [processMovieLogic, hhref, hstale, hid]

/-- C5 amended: on a stale cached record with a stored external id, the
engine performs exactly one provider call — `byExternalId` — whatever the
outcome (so a failed id refresh never falls back to a title search).  On
failure, or on a payload without a usable rating, the stale cached record
is returned as-is with source `cache-stale`.  On success the refreshed
rating, secondary rating and vote count are spliced in with the cached
values as fallback, and the cached title is kept; but the release date
comes from the provider payload — defaulting to "now", not to the cached
release date, when the provider reports it unknown. -/
theorem C5_stale_id_refresh (m : MovieReq) (c : Row) (P : Provider) (now : Int)
    (hhref : truthyS m.href = true)
    (hstale : isDataStale c.release_date c.updated_at now = true)
    (hid : truthyS c.imdb_id = true) :
    (processMovieLogic m (some c) P now).2 = [PCall.byId (c.imdb_id.getD "")] ∧
    (P.byId (c.imdb_id.getD "") = none →
      (processMovieLogic m (some c) P now).1 =
        { href := m.href, data := some c, source := some Source.cacheStale }) ∧
    (∀ r, P.byId (c.imdb_id.getD "") = some r →
      (truthyS r.imdbRating = false ∨ r.imdbRating = some "N/A") →
      (processMovieLogic m (some c) P now).1 =
        { href := m.href, data := some c, source := some Source.cacheStale }) ∧
    (∀ r, P.byId (c.imdb_id.getD "") = some r →
      truthyS r.imdbRating = true → r.imdbRating ≠ some "N/A" →
      ∀ rel, parseReleaseDate r.Released now = Except.ok rel →
        (processMovieLogic m (some c) P now).1 =
          { href := m.href,
            data := some
              { imdb_id := some r.imdbID, title := c.title,
                year := orElseInt (parseIntJS r.Year) c.year,
                release_date := some rel,
                prime_href := m.href.getD "",
                rating := orElseQ (r.imdbRating.bind parseFloatQ) c.rating,
                rt_rating := (match extractRottenTomatoes r.Ratings with
                              | some v => some v
                              | none => c.rt_rating),
                votes := orElseInt (parseIntJS (stripCommas (jsOrStr r.imdbVotes "0"))) c.votes,
                updated_at := some now },
            source := some Source.apiRefresh }) := by
  rw [processMovieLogic_stale_with_id m c P now hhref hstale hid]
  refine ⟨?_, ?_, ?_, ?_⟩
  · rcases hP : P.byId (c.imdb_id.getD "") with _ | r
    · simp [refreshById, hP]
    · by_cases hval : truthyS r.imdbRating = true ∧ r.imdbRating ≠ some "N/A"
      · rcases hrel : parseReleaseDate r.Released now with e | rel <;>
          simp [refreshById, hP, hval, hrel]
      · simp [refreshById, hP, hval]
  · intro hnone
    simp [refreshById, hnone]
  · intro r hr hbad
    rcases hbad with hbad | hbad
    · simp [refreshById, hr, hbad]
    · simp [refreshById, hr, hbad, truthyS]
  · intro r hr hgood hna rel hrel
    simp [refreshById, hr, hgood, hna, hrel]

/-- C5 witness: the refresh branch at the concrete stale fixture. -/
theorem C5_stale_id_refresh_witness :
    (processMovieLogic { title := some "T", href := some "/h1" } (some sampleRow)
        provIdOnly sampleNow).1.source = some Source.apiRefresh := by
  have h := (C5_stale_id_refresh { title := some "T", href := some "/h1" } sampleRow
      provIdOnly sampleNow (by decide) (by decide) (by decide)).2.2.2 sampleDetail rfl
      (by decide) (by decide) sampleNow rfl
  rw [h]

/-- Helper: the post-cache resolution path tags its result `api` or an
error, never `cache`. -/
theorem resolveFromTitle_source_ne_cache (o : Option String) (h : String)
    (et : Option String) (vr : Option ℚ) (P : Provider) (now : Int) (t : Option String) :
    (resolveFromTitle o h et vr P now t).1.source ≠ some Source.cache := by
  by_cases ht : truthyS t = true
  · rw [resolveFromTitle, if_neg (not_not_intro ht)]
    dsimp only
    rcases hchain : (resolveChain (stripBracketSuffix (stripDirectorsCut (t.getD ""))) et vr P).1
      with _ | r
    · simp [hchain]
    · rcases hbuild : buildMovieData (stripBracketSuffix (stripDirectorsCut (t.getD ""))) h r now
        with e | d
      · simp [hchain, hbuild]
      · simp [hchain, hbuild]
  · rw [resolveFromTitle, if_pos ht]
    simp

/-- Helper: the cached-block fall-through path tags its result
`cache-stale`, `api` or an error, never `cache`. -/
theorem cachedFallThrough_source_ne_cache (o : Option String) (h : String)
    (et : Option String) (vr : Option ℚ) (P : Provider) (now : Int)
    (rt : Option String) (c : Row) :
    (cachedFallThrough o h et vr P now rt c).1.source ≠ some Source.cache := by
  rw [cachedFallThrough]
  split_ifs
  · simp
  · exact resolveFromTitle_source_ne_cache o h et vr P now rt
  · exact resolveFromTitle_source_ne_cache o h et vr P now c.title

/-- C6 amended: a fresh cached record is returned as-is with source
`cache` when no verification rating is supplied, when the supplied value
is 0 (JS-falsy, treated as absent), or when the supplied value differs
from the cached rating by less than 0.2; a supplied NONZERO verification
rating differing by 0.2 or more discards the cache hit and the response
is not a plain cache hit. -/
theorem C6_fresh_cache_verification (m : MovieReq) (c : Row) (P : Provider) (now : Int)
    (hhref : truthyS m.href = true)
    (hfresh : isDataStale c.release_date c.updated_at now = false) :
    ((m.verificationRating = none ∨ m.verificationRating = some 0 ∨
        (∃ v, m.verificationRating = some v ∧ |c.rating - v| < 1/5)) →
      (processMovieLogic m (some c) P now).1 =
        { href := m.href, data := some c, source := some Source.cache }) ∧
    (∀ v, m.verificationRating = some v → v ≠ 0 → |c.rating - v| ≥ 1/5 →
      (processMovieLogic m (some c) P now).1.source ≠ some Source.cache) := by
  have hmaster : processMovieLogic m (some c) P now =
      (if truthyQ m.verificationRating then
        (if |c.rating - m.verificationRating.getD 0| ≥ 1/5 then
          cachedFallThrough m.href (m.href.getD "") m.entityType m.verificationRating P now
            m.title c
        else ({ href := m.href, data := some c, source := some Source.cache }, []))
      else ({ href := m.href, data := some c, source := some Source.cache }, [])) := by
    have hf : ¬ isDataStale c.release_date c.updated_at now = true := by
      rw [hfresh]; exact Bool.false_ne_true
    rw [processMovieLogic, if_neg (not_not_intro hhref)]
    dsimp only
    rw [if_pos hf]
  have hnone : ¬ truthyQ (none : Option ℚ) = true := by decide
  have hzero : ¬ truthyQ (some (0 : ℚ)) = true := by decide
  constructor
  · rintro (hv | hv | ⟨v, hv, hlt⟩)
    · rw [hmaster, hv, if_neg hnone]
    · rw [hmaster, hv, if_neg hzero]
    · by_cases hv0 : v = 0
      · subst hv0
        rw [hmaster, hv, if_neg hzero]
      · have hvt : truthyQ (some v) = true := by simp [truthyQ, hv0]
        rw [hmaster, hv, if_pos hvt]
        rw [show (Option.getD (some v) 0) = v from rfl]
        rw [if_neg (not_le.mpr hlt)]
  · intro v hv hv0 hge
    have hvt : truthyQ (some v) = true := by simp [truthyQ, hv0]
    rw [hmaster, hv, if_pos hvt]
    rw [show (Option.getD (some v) 0) = v from rfl]
    rw [if_pos hge]
    exact cachedFallThrough_source_ne_cache _ _ _ _ _ _ _ _

/-- C6 witness: a matching nonzero verification rating keeps the cache
hit (difference 0 < 0.2). -/
theorem C6_fresh_cache_verification_witness :
    (processMovieLogic
        { title := some "T", href := some "/h1", verificationRating := some 7 }
        (some freshRow) provEmpty sampleNow).1 =
      { href := some "/h1", data := some freshRow, source := some Source.cache } := by
  have h := (C6_fresh_cache_verification
      { title := some "T", href := some "/h1", verificationRating := some 7 }
      freshRow provEmpty sampleNow (by decide) (by decide)).1
    (Or.inr (Or.inr ⟨7, rfl, by norm_num [freshRow, sampleRow]⟩))
  exact h

/-- C8: a provider result is valid iff (a) its rating field is present and
not the `"N/A"` unknown marker, and (b) whenever an entity type is
supplied and the provider reports a nonempty type, the lowercased
provider type equals the expected one (`"movie"` exactly for a `"Movie"`
request, `"series"` for anything else); absence of the type on either
side makes (b) vacuous. -/
theorem C8_validity_criteria (r : OmdbResult) (et : Option String) :
    isValidResult r et = true ↔
      ((truthyS r.imdbRating = true ∧ r.imdbRating ≠ some "N/A") ∧
       (truthyS et = true → ∀ t0, r.type = some t0 → jsToLower t0 ≠ "" →
          jsToLower t0 = (if et = some "Movie" then "movie" else "series"))) := by
  rw [isValidResult]
  by_cases h1 : ¬ truthyS r.imdbRating = true ∨ r.imdbRating = some "N/A"
  · rw [if_pos h1]
    simp only [Bool.false_eq_true, false_iff]
    rintro ⟨⟨ha, hb⟩, _⟩
    rcases h1 with h1 | h1
    · exact h1 ha
    · exact hb h1
  · rw [if_neg h1]
    push_neg at h1
    obtain ⟨ha, hb⟩ := h1
    by_cases h2 : truthyS et = true
    · rw [if_pos h2]
      dsimp only
      cases htype : r.type with
      | none =>
        simp only [Option.map_none']
        constructor
        · intro _
          exact ⟨⟨ha, hb⟩, fun _ t0 ht0 _ => nomatch ht0⟩
        · intro _
          trivial
      | some t0 =>
        simp only [Option.map_some']
        by_cases h3 : jsToLower t0 ≠ "" ∧ jsToLower t0 ≠ (if et = some "Movie" then "movie" else "series")
        · rw [if_pos h3]
          simp only [Bool.false_eq_true, false_iff]
          rintro ⟨_, himp⟩
          exact h3.2 (himp h2 t0 rfl h3.1)
        · rw [if_neg h3]
          push_neg at h3
          constructor
          · intro _
            refine ⟨⟨ha, hb⟩, fun _ t0' ht0' hne => ?_⟩
            cases ht0'
            exact h3 hne
          · intro _
            rfl
    · rw [if_neg h2]
      constructor
      · intro _
        exact ⟨⟨ha, hb⟩, fun hc => absurd hc h2⟩
      · intro _
        rfl

/-- C8 witness: the criteria applied to the concrete fixture payload. -/
theorem C8_validity_criteria_witness :
    isValidResult sampleDetail (some "Movie") = true := by
  refine (C8_validity_criteria sampleDetail (some "Movie")).mpr ⟨⟨by decide, by decide⟩, ?_⟩
  intro _ t0 ht0 _
  have ht : t0 = "movie" := by
    have : sampleDetail.type = some "movie" := by decide
    rw [this] at ht0
    cases ht0
    rfl
  rw [ht]
  decide

/-- Helper: an element of `(l.map f).zip l` pairs `f a` with `a`. -/
theorem zipMapSelf {α β : Type} (f : α → β) :
    ∀ (l : List α) (p : β × α), p ∈ (l.map f).zip l → p.1 = f p.2 := by
  intro l
  induction l with
  | nil => intro p hp; cases hp
  | cons a t ih =>
    intro p hp
    rcases List.mem_cons.mp hp with hp | hp
    · rw [hp]
    · exact ih p hp

/-- C9 amended: every input item — keyless or not — yields exactly one
response entry; an item with no stable key is not dropped but answered
with the per-item error `"Missing href"` and no data. -/
theorem C9_keyless_items_get_error_entries (movies : List MovieReq) (db : List Row)
    (P : Provider) (now : Int) :
    (handleBatchLookup movies db P now).1.length = movies.length ∧
    ∀ p ∈ (handleBatchLookup movies db P now).1.zip movies,
      truthyS p.2.href = false →
        p.1 = { href := p.2.href, data := none, error := some "Missing href", source := none } := by
  have hres : (handleBatchLookup movies db P now).1 =
      movies.map (fun m => (processMovieLogic m (lookupHref db m.href) P now).1) := by
    simp [handleBatchLookup]
  constructor
  · rw [hres, List.length_map]
  · intro p hp hkey
    rw [hres] at hp
    rw [zipMapSelf _ movies p hp]
    rw [processMovieLogic, if_pos (by rw [hkey]; exact Bool.false_ne_true)]

/-- C9 witness: the single keyless item of the counterexample batch is
answered with the error entry. -/
theorem C9_keyless_items_witness :
    ({ href := none, data := none, error := some "Missing href", source := none } : MovieResult) =
      { href := ({ title := some "T" } : MovieReq).href, data := none,
        error := some "Missing href", source := none } :=
  (C9_keyless_items_get_error_entries [{ title := some "T" }] [] provEmpty 0).2
    ({ href := none, data := none, error := some "Missing href", source := none },
      { title := some "T" })
    (by decide) (by decide)

/-- Helper: the resolution chain with a zero verification rating equals
the chain with none (all verification guards are JS-truthiness tests). -/
theorem resolveChain_zero_vr (t : String) (et : Option String) (P : Provider) :
    resolveChain t et (some 0) P = resolveChain t et none P := by
  have h0 : truthyQ (some (0 : ℚ)) = false := by decide
  simp [resolveChain, h0, truthyQ]

/-- Helper: the post-cache path with a zero verification rating. -/
theorem resolveFromTitle_zero_vr (o : Option String) (h : String) (et : Option String)
    (P : Provider) (now : Int) (t : Option String) :
    resolveFromTitle o h et (some 0) P now t = resolveFromTitle o h et none P now t := by
  simp only [resolveFromTitle, resolveChain_zero_vr]

/-- Helper: the cached-block fall-through with a zero verification rating. -/
theorem cachedFallThrough_zero_vr (o : Option String) (h : String) (et : Option String)
    (P : Provider) (now : Int) (rt : Option String) (c : Row) :
    cachedFallThrough o h et (some 0) P now rt c =
      cachedFallThrough o h et none P now rt c := by
  simp only [cachedFallThrough, resolveFromTitle_zero_vr]

/-- C10: a request whose verification rating is 0 behaves exactly as if
none were supplied: 0 is JS-falsy, so it never invalidates a fresh cache
hit and never triggers the rating-mismatch fallback or the reverse
split. -/
theorem C10_zero_verification_like_absent (m : MovieReq) (cached : Option Row)
    (P : Provider) (now : Int) :
    processMovieLogic { m with verificationRating := some 0 } cached P now =
      processMovieLogic { m with verificationRating := none } cached P now := by
  have hzero : ¬ truthyQ (some (0 : ℚ)) = true := by decide
  have hnone : ¬ truthyQ (none : Option ℚ) = true := by decide
  cases cached with
  | none =>
    dsimp only [processMovieLogic]
    by_cases hh : truthyS m.href = true
    · rw [if_neg (not_not_intro hh), if_neg (not_not_intro hh)]
      exact resolveFromTitle_zero_vr _ _ _ _ _ _
    · rw [if_pos hh, if_pos hh]
  | some c =>
    dsimp only [processMovieLogic]
    by_cases hh : truthyS m.href = true
    · rw [if_neg (not_not_intro hh), if_neg (not_not_intro hh)]
      by_cases hst : isDataStale c.release_date c.updated_at now = true
      · rw [if_neg (not_not_intro hst), if_neg (not_not_intro hst)]
        by_cases hid : truthyS c.imdb_id = true
        · rw [if_pos hid, if_pos hid]
        · rw [if_neg hid, if_neg hid]
          exact cachedFallThrough_zero_vr _ _ _ _ _ _ _
      · rw [if_pos hst, if_pos hst]
        rw [if_neg hzero, if_neg hnone]
    · rw [if_pos hh, if_pos hh]

end ImdbWorker
